import Mathlib

/-!
Shallow embedding of the Adaptive Interview Engine of the `doctorask`
repository (src/services/medicalAIService.ts, diagnosisTrackerService.ts,
diagnosticProgress.ts, types/symptomProfile.ts), together with theorems
settling the frozen claims about it.

Modelling conventions:
* JS numbers that the engine only compares and adds (severity, confidence,
  probability) are embedded as `Int`.
* TS optional string fields are embedded as `String` with `""` standing for
  `undefined` (both are falsy in the JS guards that read them); optional
  list fields read through `x && x.length > 0` are embedded as `List String`
  (absent and `[]` behave identically there); the one optional list field
  read bare for truthiness (`timing`) is `Option (List String)` because in
  JS an empty array is truthy.
* Class methods are embedded as pure functions on an explicit state record;
  the remote AI call is a parameter of type `Except String (List Diagnosis)`
  (error = the collaborator's retry budget was exhausted / request failed).
-/

namespace DoctorAsk

/-- Likelihood bucket of a candidate diagnosis (types/symptomProfile.ts). -/
inductive Likelihood where
  | very_low | low | moderate | high | very_high
deriving DecidableEq, Repr

/-- Internal urgency vocabulary (types/symptomProfile.ts). -/
inductive Urgency where
  | low | moderate | high | emergency
deriving DecidableEq, Repr

/-- Question strategy vocabulary (types/symptomProfile.ts,
`nextQuestionStrategy`). -/
inductive Strategy where
  | discriminative | confirmation | red_flag_check | completeness
deriving DecidableEq, Repr

/-- `SymptomDetail` of types/symptomProfile.ts (an Evidence record). -/
structure SymptomDetail where
  name : String
  severity : Int
  duration : String := ""
  onset : String := ""
  location : String := ""
  frequency : String := ""
  timing : Option (List String) := none
  pattern : String := ""
  triggers : List String := []
  associatedSymptoms : List String := []
  bodySystems : List String := []
deriving DecidableEq, Repr

/-- `PossibleDiagnosis` of types/symptomProfile.ts. -/
structure PossibleDiagnosis where
  name : String
  confidence : Int
  likelihood : Likelihood
  urgency : Urgency
  supportingSymptoms : List String := []
  contradictingSymptoms : List String := []
  missingKeySymptoms : List String := []
  reasoning : String := ""
deriving DecidableEq, Repr

/-- `RuledOutCondition` of types/symptomProfile.ts. -/
structure RuledOutCondition where
  name : String
  reason : String := ""
  evidence : String := ""
  confidenceOfExclusion : Int := 0
deriving DecidableEq, Repr

/-- `DiagnosticProgress` of types/symptomProfile.ts. -/
structure DiagnosticProgress where
  totalQuestionsAsked : Nat
  maxQuestions : Nat
  currentConfidence : Int
  targetConfidence : Int
  possibleDiagnoses : List PossibleDiagnosis
  ruledOutConditions : List RuledOutCondition
  nextQuestionStrategy : Strategy
  informationGain : Int
deriving DecidableEq, Repr

/-- `Diagnosis` as returned by the AI oracle (medicalAIService.ts). -/
structure Diagnosis where
  condition : String
  probability : Int
  confidence : String := ""
  reasoning : String := ""
  urgencyLevel : String := ""
deriving DecidableEq, Repr

/-- Substring scan: `needle` occurs (contiguously) somewhere in the
haystack. -/
def containsSub (needle : List Char) : List Char → Bool
  | [] => needle.isPrefixOf []
  | c :: t => needle.isPrefixOf (c :: t) || containsSub needle t

/-- JS `a.includes(b)` on strings: substring containment. -/
def jsIncludes (s sub : String) : Bool :=
  containsSub sub.toList s.toList

/-- `createInitialDiagnosticProgress` (diagnosticProgress.ts) with no
overrides: the documented "single source of truth" for initial progress
defaults. -/
def createInitialDiagnosticProgress : DiagnosticProgress :=
  { totalQuestionsAsked := 0
    maxQuestions := 20
    currentConfidence := 0
    targetConfidence := 70
    possibleDiagnoses := []
    ruledOutConditions := []
    nextQuestionStrategy := .discriminative
    informationGain := 0 }

/-- The initial `diagnosticProgress` built inline by the
`AdaptiveDiagnosticSystem` constructor (medicalAIService.ts). -/
def adaptiveSystemInitialProgress : DiagnosticProgress :=
  { totalQuestionsAsked := 0
    maxQuestions := 20
    currentConfidence := 0
    targetConfidence := 85
    possibleDiagnoses := []
    ruledOutConditions := []
    nextQuestionStrategy := .discriminative
    informationGain := 0 }

/-- The initial `diagnosticProgress` built inline by the `DiagnosisTracker`
constructor (diagnosisTrackerService.ts). -/
def diagnosisTrackerInitialProgress : DiagnosticProgress :=
  { totalQuestionsAsked := 0
    maxQuestions := 20
    currentConfidence := 0
    targetConfidence := 85
    possibleDiagnoses := []
    ruledOutConditions := []
    nextQuestionStrategy := .discriminative
    informationGain := 0 }

/-- `getConfidenceCategory` (identical in medicalAIService.ts and
diagnosisTrackerService.ts). -/
def getConfidenceCategory (confidence : Int) : Likelihood :=
  if confidence < 20 then .very_low
  else if confidence < 40 then .low
  else if confidence < 60 then .moderate
  else if confidence < 80 then .high
  else .very_high

/-- `requiresLocation` (identical in medicalAIService.ts and
diagnosisTrackerService.ts): substring match against a fixed list. -/
def requiresLocation (symptom : String) : Bool :=
  ["pain", "headache", "chest_pain", "abdominal_pain", "rash", "swelling"].any
    (fun s => jsIncludes symptom s)

/-- `AdaptiveDiagnosticSystem.calculateCompleteness` (medicalAIService.ts):
the completeness score over the Evidence list, relative to the profile's
primary symptom name. -/
def calculateCompleteness (primarySymptom : String)
    (symptomDetails : List SymptomDetail) : Int :=
  match symptomDetails.find? (fun s => s.name == primarySymptom) with
  | none => 0
  | some primaryDetail =>
      let completeness : Int :=
        (if 0 < primaryDetail.severity then 10 else 0)
        + (if primaryDetail.duration ≠ "" then 10 else 0)
        + (if primaryDetail.location ≠ "" ∨ ¬ requiresLocation primarySymptom then 10 else 0)
        + (if primaryDetail.frequency ≠ "" then 10 else 0)
        + (if primaryDetail.triggers.length > 0 then 10 else 0)
        + (if primaryDetail.associatedSymptoms.length > 0 then 10 else 0)
        + (if primaryDetail.onset ≠ "" then 10 else 0)
        + (if symptomDetails.length > 1 then 20 else 0)
        + (if primaryDetail.pattern ≠ "" ∨ primaryDetail.timing.isSome then 10 else 0)
      min 100 completeness

/-- `DiagnosisTracker.getSymptomCompleteness` (diagnosisTrackerService.ts).
Note its location line reads
`if (primaryDetail.location || this.requiresLocation(primarySymptom))` —
without the negation that `calculateCompleteness` has. -/
def getSymptomCompleteness (primarySymptom : String)
    (symptoms : List SymptomDetail) : Int :=
  if symptoms.length = 0 then 0
  else
    match symptoms.find? (fun s => s.name == primarySymptom) with
    | none => 0
    | some primaryDetail =>
        let completeness : Int :=
          (if 0 < primaryDetail.severity then 10 else 0)
          + (if primaryDetail.duration ≠ "" then 10 else 0)
          + (if primaryDetail.location ≠ "" ∨ requiresLocation primarySymptom then 10 else 0)
          + (if primaryDetail.frequency ≠ "" then 10 else 0)
          + (if primaryDetail.triggers.length > 0 then 10 else 0)
          + (if primaryDetail.associatedSymptoms.length > 0 then 10 else 0)
          + (if primaryDetail.onset ≠ "" then 10 else 0)
          + (if symptoms.length > 1 then 20 else 0)
          + (if primaryDetail.pattern ≠ "" ∨ primaryDetail.timing.isSome then 10 else 0)
        min 100 completeness

/-- `checkCriticalSymptoms` (medicalAIService.ts): one pass over the
Evidence list pushing critical strings. -/
def checkCriticalSymptoms (symptomDetails : List SymptomDetail) : List String :=
  symptomDetails.foldl
    (fun acc symptom =>
      acc
      ++ (if 8 ≤ symptom.severity then
            ["High severity " ++ symptom.name ++ " (" ++ toString symptom.severity ++ "/10)"]
          else [])
      ++ (if symptom.name = "chest_pain" ∧ 6 ≤ symptom.severity then
            ["Moderate to severe chest pain"] else [])
      ++ (if symptom.name = "shortness_of_breath" ∧ 6 ≤ symptom.severity then
            ["Moderate to severe shortness of breath"] else [])
      ++ (if symptom.name = "headache" ∧ symptom.onset = "sudden" ∧ 8 ≤ symptom.severity then
            ["Sudden severe headache"] else []))
    []

/-- `checkRedFlags` (medicalAIService.ts): one pass over the Evidence list
pushing red-flag strings. -/
def checkRedFlags (symptomDetails : List SymptomDetail) : List String :=
  symptomDetails.foldl
    (fun acc symptom =>
      acc
      ++ (if symptom.name = "chest_pain" ∧ 7 ≤ symptom.severity then
            ["Severe chest pain - possible cardiac emergency"] else [])
      ++ (if symptom.name = "shortness_of_breath" ∧ 8 ≤ symptom.severity then
            ["Severe shortness of breath - possible respiratory emergency"] else [])
      ++ (if symptom.name = "headache" ∧ symptom.onset = "sudden" ∧ 9 ≤ symptom.severity then
            ["Thunderclap headache - possible subarachnoid hemorrhage"] else [])
      ++ (if symptom.name = "abdominal_pain" ∧ symptom.location = "right_lower_quadrant" then
            ["Right lower quadrant pain - possible appendicitis"] else [])
      ++ (if 9 ≤ symptom.severity then
            ["Severe " ++ symptom.name ++ " (9-10/10)"] else []))
    []

/-- `hasRedFlagSymptoms` (identical in medicalAIService.ts and
diagnosisTrackerService.ts). -/
def hasRedFlagSymptoms (possibleDiagnoses : List PossibleDiagnosis)
    (symptoms : List SymptomDetail) : Bool :=
  possibleDiagnoses.any (fun d => d.urgency == .emergency)
  || symptoms.any (fun s => decide (8 ≤ s.severity))

/-- `updateQuestionStrategy` (identical in medicalAIService.ts and
diagnosisTrackerService.ts), as a pure function of the current candidate
list and the profile's Evidence list. -/
def updateQuestionStrategy (possibleDiagnoses : List PossibleDiagnosis)
    (symptoms : List SymptomDetail) : Strategy :=
  match possibleDiagnoses.head? with
  | none => .completeness
  | some topDiagnosis =>
      let secondDiagnosis := possibleDiagnoses[1]?
      let gapOver20 : Bool :=
        match secondDiagnosis with
        | none => true
        | some s => decide (20 < topDiagnosis.confidence - s.confidence)
      let gapUnder15 : Bool :=
        match secondDiagnosis with
        | none => false
        | some s => decide (topDiagnosis.confidence - s.confidence < 15)
      if 70 < topDiagnosis.confidence ∧ gapOver20 then .confirmation
      else if gapUnder15 then .discriminative
      else if hasRedFlagSymptoms possibleDiagnoses symptoms then .red_flag_check
      else .completeness

/-- Modelled from the spec, §4.4: the five strategy rules as written there
("Evaluated top-down, first match wins"), for comparison with the code's
`updateQuestionStrategy`. -/
def selectStrategySpec (candidates : List PossibleDiagnosis)
    (evidence : List SymptomDetail) : Strategy :=
  match candidates with
  | [] => .completeness
  | [top] =>
      if 70 < top.confidence then .confirmation
      else if [top].any (fun d => d.urgency == Urgency.emergency)
              || evidence.any (fun s => decide (8 ≤ s.severity)) then .red_flag_check
      else .completeness
  | top :: second :: rest =>
      if 70 < top.confidence ∧ 20 < top.confidence - second.confidence then .confirmation
      else if top.confidence - second.confidence < 15 then .discriminative
      else if (top :: second :: rest).any (fun d => d.urgency == Urgency.emergency)
              || evidence.any (fun s => decide (8 ≤ s.severity)) then .red_flag_check
      else .completeness

/-- `shouldStop` (medicalAIService.ts): the stop evaluator, returning the
stop flag and the optional human-readable reason string. -/
def shouldStop (progress : DiagnosticProgress) : Bool × Option String :=
  if progress.targetConfidence ≤ progress.currentConfidence then
    (true, some ("Target confidence reached: " ++ toString progress.currentConfidence
      ++ "% >= " ++ toString progress.targetConfidence ++ "%"))
  else if progress.maxQuestions ≤ progress.totalQuestionsAsked then
    (true, some ("Maximum questions reached: " ++ toString progress.totalQuestionsAsked
      ++ " >= " ++ toString progress.maxQuestions))
  else if progress.possibleDiagnoses.length = 1 ∧ 75 ≤ progress.currentConfidence then
    (true, some ("Single high-confidence diagnosis: "
      ++ ((progress.possibleDiagnoses.head?.map PossibleDiagnosis.name).getD "undefined")
      ++ " (" ++ toString progress.currentConfidence ++ "% confidence)"))
  else (false, none)

/-- `mapUrgencyLevel` (identical in medicalAIService.ts and
diagnosisTrackerService.ts): oracle urgency vocabulary → internal urgency. -/
def mapUrgencyLevel (urgency : String) : Urgency :=
  if urgency = "emergency" then .emergency
  else if urgency = "urgent" then .high
  else if urgency = "routine" then .moderate
  else if urgency = "self_care" then .low
  else .moderate

/-- Descending-confidence order used by the JS comparator
`(a, b) => b.confidence - a.confidence`. -/
def descConfidence (a b : PossibleDiagnosis) : Prop :=
  b.confidence ≤ a.confidence

instance : DecidableRel descConfidence :=
  fun a b => inferInstanceAs (Decidable (b.confidence ≤ a.confidence))

instance : IsTotal PossibleDiagnosis descConfidence :=
  ⟨fun a b => le_total b.confidence a.confidence⟩

instance : IsTrans PossibleDiagnosis descConfidence :=
  ⟨fun _ _ _ h1 h2 => le_trans h2 h1⟩

/-- State of one `AdaptiveDiagnosticSystem` instance: the profile parts the
engine reads, its candidate list, and its `diagnosticProgress`. -/
structure AdaptiveState where
  primarySymptom : String
  symptoms : List SymptomDetail
  possibleDiagnoses : List PossibleDiagnosis
  ruledOutConditions : List RuledOutCondition
  diagnosticProgress : DiagnosticProgress
deriving DecidableEq, Repr

/-- The `AdaptiveDiagnosticSystem` constructor followed by
`initializeDiagnoses` (medicalAIService.ts). -/
def mkAdaptiveSystem (primarySymptom : String)
    (symptoms : List SymptomDetail := []) : AdaptiveState :=
  { primarySymptom := primarySymptom
    symptoms := symptoms
    possibleDiagnoses := []
    ruledOutConditions := []
    diagnosticProgress := adaptiveSystemInitialProgress }

/-- The conversion of one oracle `Diagnosis` to a `PossibleDiagnosis`
inside `updateWithAIDiagnoses` (medicalAIService.ts). -/
def convertAIDiagnosis (symptoms : List String) (aiDiagnosis : Diagnosis) :
    PossibleDiagnosis :=
  { name := aiDiagnosis.condition
    confidence := aiDiagnosis.probability
    likelihood := getConfidenceCategory aiDiagnosis.probability
    urgency := mapUrgencyLevel aiDiagnosis.urgencyLevel
    supportingSymptoms := symptoms
    contradictingSymptoms := []
    missingKeySymptoms := []
    reasoning := aiDiagnosis.reasoning }

/-- `AdaptiveDiagnosticSystem.updateWithAIDiagnoses` (medicalAIService.ts):
convert, sort descending by confidence, replace the candidate list, bump the
question counter, recompute `currentConfidence`, re-derive the strategy. -/
def updateWithAIDiagnoses (st : AdaptiveState) (aiDiagnoses : List Diagnosis) :
    AdaptiveState :=
  let symptoms := st.primarySymptom :: st.symptoms.map SymptomDetail.name
  let newDiagnoses :=
    List.insertionSort descConfidence (aiDiagnoses.map (convertAIDiagnosis symptoms))
  { st with
    possibleDiagnoses := newDiagnoses
    diagnosticProgress :=
      { st.diagnosticProgress with
        totalQuestionsAsked := st.diagnosticProgress.totalQuestionsAsked + 1
        possibleDiagnoses := newDiagnoses
        ruledOutConditions := st.ruledOutConditions
        currentConfidence := ((newDiagnoses.head?).map PossibleDiagnosis.confidence).getD 0
        nextQuestionStrategy := updateQuestionStrategy newDiagnoses st.symptoms } }

/-- `AdaptiveDiagnosticSystem.updateDiagnosis` (medicalAIService.ts):
append the new Evidence record and bump the question counter. -/
def updateDiagnosis (st : AdaptiveState) (newSymptomDetail : SymptomDetail) :
    AdaptiveState :=
  { st with
    symptoms := st.symptoms ++ [newSymptomDetail]
    diagnosticProgress :=
      { st.diagnosticProgress with
        totalQuestionsAsked := st.diagnosticProgress.totalQuestionsAsked + 1
        ruledOutConditions := st.ruledOutConditions } }

/-- Result shape of `getRealTimeAIAnalysis` (medicalAIService.ts). -/
structure RealTimeAnalysis where
  diagnoses : List Diagnosis
  confidence : Int
  reasoning : String
deriving DecidableEq, Repr

/-- `Math.max(...aiDiagnoses.map(d => d.probability))` guarded by
`aiDiagnoses.length > 0 ? ... : 0` (medicalAIService.ts). -/
def maxProbability (aiDiagnoses : List Diagnosis) : Int :=
  match aiDiagnoses with
  | [] => 0
  | d :: rest => rest.foldl (fun m x => max m x.probability) d.probability

/-- `aiDiagnoses[0]?.reasoning || 'No reasoning provided'`
(medicalAIService.ts). -/
def headReasoning (aiDiagnoses : List Diagnosis) : String :=
  match aiDiagnoses.head? with
  | some d => if d.reasoning = "" then "No reasoning provided" else d.reasoning
  | none => "No reasoning provided"

/-- `AdaptiveDiagnosticSystem.getRealTimeAIAnalysis` (medicalAIService.ts),
with the oracle round-trip (`analyzeSymptoms` behind the retry wrapper)
abstracted as an `Except`: the `catch` branch of the source returns the
degraded payload instead of re-throwing. -/
def getRealTimeAIAnalysis (oracle : Except String (List Diagnosis)) :
    RealTimeAnalysis :=
  match oracle with
  | .error _ =>
      { diagnoses := [], confidence := 0, reasoning := "AI analysis unavailable" }
  | .ok aiDiagnoses =>
      { diagnoses := aiDiagnoses
        confidence := maxProbability aiDiagnoses
        reasoning := headReasoning aiDiagnoses }

/-- `AdaptiveDiagnosticSystem.updateWithRealTimeAnalysis`
(medicalAIService.ts): feed the (possibly degraded) analysis into
`updateWithAIDiagnoses`. -/
def updateWithRealTimeAnalysis (st : AdaptiveState)
    (oracle : Except String (List Diagnosis)) : AdaptiveState :=
  updateWithAIDiagnoses st (getRealTimeAIAnalysis oracle).diagnoses

/-! ### Question sanitizer (`validateAndCleanQuestion`, medicalAIService.ts)

The compound-question detection uses JS regular expressions; they are
embedded as a small regular-expression datatype with Brzozowski-derivative
matching. Each JS pattern is translated to a whole-string expression:
`test` (search anywhere) adds `Σ*` at the unanchored ends, `$` anchors the
end, `\b` before a word becomes "start of string or a non-word character",
`.` excludes line terminators, `/i` compares through `Char.toLower`. -/

/-- JS `\w`: ASCII letters, digits, underscore. -/
def jsWordChar (c : Char) : Bool :=
  c.isAlpha || c.isDigit || c = '_'

/-- JS `\s`: whitespace (ASCII whitespace plus NBSP, BOM and the line/
paragraph separators). -/
def jsWsChar (c : Char) : Bool :=
  c = ' ' || c = '\t' || c = '\n' || c = '\r' || c = '\x0b' || c = '\x0c'
  || c = '\u00A0' || c = '\uFEFF' || c = '\u2028' || c = '\u2029'

/-- JS `.` (no dotall flag): any character except line terminators. -/
def jsDotChar (c : Char) : Bool :=
  !(c = '\n' || c = '\r' || c = '\u2028' || c = '\u2029')

/-- Regular expressions over characters, with character classes. -/
inductive RE where
  | fail
  | eps
  | cls (p : Char → Bool)
  | cat (a b : RE)
  | alt (a b : RE)
  | star (a : RE)

/-- Does the expression accept the empty string? -/
def regNullable : RE → Bool
  | .fail => false
  | .eps => true
  | .cls _ => false
  | .cat a b => regNullable a && regNullable b
  | .alt a b => regNullable a || regNullable b
  | .star _ => true

/-- Brzozowski derivative with respect to one character. -/
def regDeriv : RE → Char → RE
  | .fail, _ => .fail
  | .eps, _ => .fail
  | .cls p, c => if p c then .eps else .fail
  | .cat a b, c =>
      if regNullable a then .alt (.cat (regDeriv a c) b) (regDeriv b c)
      else .cat (regDeriv a c) b
  | .alt a b, c => .alt (regDeriv a c) (regDeriv b c)
  | .star a, c => .cat (regDeriv a c) (.star a)

/-- Whole-string match by iterated derivatives. -/
def reMatch (r : RE) (s : List Char) : Bool :=
  regNullable (s.foldl regDeriv r)

/-- Sequential composition of a list of expressions. -/
def reSeq : List RE → RE
  | [] => .eps
  | [r] => r
  | r :: rest => .cat r (reSeq rest)

/-- Literal character. -/
def reChar (c : Char) : RE := .cls (fun x => x = c)

/-- Case-insensitive literal character (give it in lower case). -/
def reCharCI (c : Char) : RE := .cls (fun x => x.toLower = c)

/-- Literal string. -/
def reStr (s : String) : RE := reSeq (s.toList.map reChar)

/-- Case-insensitive literal string (give it in lower case). -/
def reStrCI (s : String) : RE := reSeq (s.toList.map reCharCI)

/-- `Σ*`: anything, used for the unanchored ends of a `test` search. -/
def sigmaStar : RE := .star (.cls (fun _ => true))

/-- JS `\s+`. -/
def wsPlus : RE := .cat (.cls jsWsChar) (.star (.cls jsWsChar))

/-- JS `.*`. -/
def dotStar : RE := .star (.cls jsDotChar)

/-- `\b` before a word character, at the start of the search: start of
string, or any text ending in a non-word character. -/
def boundPre : RE :=
  .alt .eps (.cat sigmaStar (.cls (fun c => !jsWordChar c)))

/-- `.*\b` before a word character, in the middle of a pattern whose
previous atom was `\s+` (so the empty case already sits after a non-word
character): nothing, or dot-characters ending in a non-word one. -/
def dotStarBound : RE :=
  .alt .eps (.cat dotStar (.cls (fun c => jsDotChar c && !jsWordChar c)))

/-- The English compound-question pattern set of
`validateAndCleanQuestion` (medicalAIService.ts), in source order:
`/\band\s+.*\?$/i`, `/\bor\s+.*\?$/i`, `/\?\s+and\s+/i`, `/\?\s+or\s+/i`,
`/\bwhat\s+.*\bwhen\s+/i`, `/\bwhat\s+.*\bwhere\s+/i`,
`/\bhow\s+.*\bwhat\s+/i`, `/\bwhen\s+.*\bhow\s+/i`. -/
def compoundPatternsEn : List RE :=
  [ reSeq [boundPre, reStrCI "and", wsPlus, dotStar, reChar '?']
  , reSeq [boundPre, reStrCI "or", wsPlus, dotStar, reChar '?']
  , reSeq [sigmaStar, reChar '?', wsPlus, reStrCI "and", wsPlus, sigmaStar]
  , reSeq [sigmaStar, reChar '?', wsPlus, reStrCI "or", wsPlus, sigmaStar]
  , reSeq [boundPre, reStrCI "what", wsPlus, dotStarBound, reStrCI "when", wsPlus, sigmaStar]
  , reSeq [boundPre, reStrCI "what", wsPlus, dotStarBound, reStrCI "where", wsPlus, sigmaStar]
  , reSeq [boundPre, reStrCI "how", wsPlus, dotStarBound, reStrCI "what", wsPlus, sigmaStar]
  , reSeq [boundPre, reStrCI "when", wsPlus, dotStarBound, reStrCI "how", wsPlus, sigmaStar] ]

/-- The zh-TW compound-question pattern set of `validateAndCleanQuestion`
(medicalAIService.ts), in source order: `/和.*?嗎？$/i`, `/還是.*？$/i`,
`/？.*和/i`, `/？.*還是/i`, `/.*時間.*？.*度數？/i`,
`/.*頻率.*？.*嚴重程度？/i` (lazy `.*?` is equivalent to `.*` for a bare
match test). -/
def compoundPatternsZh : List RE :=
  [ reSeq [sigmaStar, reChar '和', dotStar, reStr "嗎？"]
  , reSeq [sigmaStar, reStr "還是", dotStar, reChar '？']
  , reSeq [sigmaStar, reChar '？', dotStar, reChar '和', sigmaStar]
  , reSeq [sigmaStar, reChar '？', dotStar, reStr "還是", sigmaStar]
  , reSeq [sigmaStar, dotStar, reStr "時間", dotStar, reChar '？', dotStar, reStr "度數？", sigmaStar]
  , reSeq [sigmaStar, dotStar, reStr "頻率", dotStar, reChar '？', dotStar, reStr "嚴重程度？", sigmaStar] ]

/-- `compoundPatterns[language] || compoundPatterns['en']`. -/
def compoundPatterns (language : String) : List RE :=
  if language = "zh-TW" then compoundPatternsZh else compoundPatternsEn

/-- ASCII lower-casing of a string (JS `toLowerCase` restricted to the
ASCII range the engine's keyword cues live in). -/
def jsToLower (s : String) : String :=
  ⟨s.data.map Char.toLower⟩

/-- JS `trim`: strip whitespace from both ends. -/
def jsTrim (s : String) : String :=
  ⟨((s.data.dropWhile jsWsChar).reverse.dropWhile jsWsChar).reverse⟩

/-- Split a character list at every separator character (JS
`String.prototype.split` with a single-character-class regex: separators
are consumed, empty pieces are kept). -/
def splitChars (p : Char → Bool) : List Char → List (List Char)
  | [] => [[]]
  | c :: t =>
      if p c then [] :: splitChars p t
      else
        match splitChars p t with
        | [] => [[c]]
        | h :: r => (c :: h) :: r

/-- JS `s.split(/[...]/)` as a list of strings. -/
def jsSplit (s : String) (p : Char → Bool) : List String :=
  (splitChars p s.data).map (fun l => ⟨l⟩)

/-- JS `s.includes(c)` for a single character. -/
def jsContainsChar (s : String) (c : Char) : Bool :=
  s.data.any (fun x => x = c)

/-- The split class `[?？]` used by the sanitizer. -/
def isQuestionMark (c : Char) : Bool :=
  c = '?' || c = '？'

/-- `(question.match(/[?？]/g) || []).length`. -/
def countQuestionMarks (question : String) : Nat :=
  (question.toList.filter isQuestionMark).length

/-- `validateAndCleanQuestion` (medicalAIService.ts): on a compound-pattern
match, or on more than one question mark, return the text before the first
question-mark character plus one mark, trimmed; otherwise return the
question unchanged. -/
def validateAndCleanQuestion (question : String) (language : String) : String :=
  if question = "" then question
  else
    let patterns := compoundPatterns language
    let parts := jsSplit question isQuestionMark
    let firstPart :=
      (parts.headD "") ++ (if jsContainsChar question '?' then "?" else "？")
    if patterns.any (fun p => reMatch p question.toList) ∧ 1 < parts.length then
      jsTrim firstPart
    else if 1 < countQuestionMarks question ∧ 1 < parts.length then
      jsTrim firstPart
    else question

/-! ### Answer extractor (`convertAnswerToSymptomDetail`, medicalAIService.ts) -/

/-- A raw answer value: the extractor distinguishes numbers from strings
(`typeof answer === 'number'` / `'string'`). `Option AnswerVal` stands for
a possibly absent answer. -/
inductive AnswerVal where
  | num (n : Int)
  | str (s : String)
deriving DecidableEq, Repr

/-- JS falsiness of the (possibly absent) answer: `!answer`. -/
def jsFalsy : Option AnswerVal → Bool
  | none => true
  | some (.num n) => n == 0
  | some (.str s) => s == ""

/-- JS `String(answer)`. -/
def answerToString : Option AnswerVal → String
  | none => "undefined"
  | some (.num n) => toString n
  | some (.str s) => s

/-- `typeof answer === 'string' ? answer : ''`. -/
def answerAsString : Option AnswerVal → String
  | some (.str s) => s
  | _ => ""

/-- `typeof answer === 'string' ? [answer] : []`. -/
def answerAsStringList : Option AnswerVal → List String
  | some (.str s) => [s]
  | _ => []

/-- Value of a character as a digit in the given radix, JS `parseInt`
style. -/
def digitValue (radix : Nat) (c : Char) : Option Nat :=
  let v : Option Nat :=
    if '0' ≤ c ∧ c ≤ '9' then some (c.toNat - '0'.toNat)
    else if 'a' ≤ c ∧ c ≤ 'z' then some (c.toNat - 'a'.toNat + 10)
    else if 'A' ≤ c ∧ c ≤ 'Z' then some (c.toNat - 'A'.toNat + 10)
    else none
  match v with
  | some n => if n < radix then some n else none
  | none => none

/-- Parse the maximal digit run at the head of the list; `none` when there
is no digit (JS `NaN`). -/
def parseDigits (radix : Nat) (l : List Char) : Option Nat :=
  let ds := l.takeWhile (fun c => (digitValue radix c).isSome)
  if ds.isEmpty then none
  else some (ds.foldl (fun acc c => acc * radix + (digitValue radix c).getD 0) 0)

/-- JS `parseInt(s)` (radix unspecified): skip whitespace, optional sign,
auto-detect a `0x` prefix, parse the maximal digit run; `none` for `NaN`. -/
def jsParseInt (s : String) : Option Int :=
  let l := s.toList.dropWhile jsWsChar
  let signAndRest : Int × List Char :=
    match l with
    | '-' :: t => (-1, t)
    | '+' :: t => (1, t)
    | _ => (1, l)
  let core : Option Nat :=
    match signAndRest.2 with
    | '0' :: c :: t =>
        if c = 'x' ∨ c = 'X' then parseDigits 16 t
        else parseDigits 10 signAndRest.2
    | _ => parseDigits 10 signAndRest.2
  core.map (fun n => signAndRest.1 * (n : Int))

/-- `typeof answer === 'number' ? answer : parseInt(answer) || 5`: the
severity coercion of the extractor (`|| 5` replaces both `NaN` and `0`). -/
def coerceSeverity (answer : Option AnswerVal) : Int :=
  match answer with
  | some (.num n) => n
  | some (.str s) =>
      match jsParseInt s with
      | some v => if v = 0 then 5 else v
      | none => 5
  | none => 5

/-- The fixed complaint-keyword vocabulary of the extractor, in scan
order (medicalAIService.ts). -/
def commonSymptoms : List String :=
  [ "headache", "fever", "cough", "nausea", "vomiting", "diarrhea"
  , "chest pain", "abdominal pain", "back pain", "fatigue", "dizziness"
  , "shortness of breath", "sore throat", "runny nose", "sneezing"
  , "muscle aches", "joint pain", "rash", "itching", "swelling"
  , "urinary frequency", "burning urination", "constipation", "bloating" ]

/-- `extractSymptomsFromAnswer` (medicalAIService.ts): keywords found in
the lower-cased answer text, in vocabulary scan order. -/
def extractSymptomsFromAnswer (text : String) : List String :=
  commonSymptoms.filter (fun symptom => jsIncludes (jsToLower text) symptom)

/-- `lastQuestion.includes('severity') || ... ('scale') || ... ('1-10')`. -/
def isSeverityQuestion (q : String) : Bool :=
  jsIncludes q "severity" || jsIncludes q "scale" || jsIncludes q "1-10"

/-- `lastQuestion.includes('how long') || ... ('duration')`. -/
def isDurationQuestion (q : String) : Bool :=
  jsIncludes q "how long" || jsIncludes q "duration"

/-- `lastQuestion.includes('where') || ... ('location')`. -/
def isLocationQuestion (q : String) : Bool :=
  jsIncludes q "where" || jsIncludes q "location"

/-- The lower-cased last question of the history. -/
def lastQuestionLower (questionHistory : List String) : String :=
  jsToLower (questionHistory.getLastD "")

/-- `convertAnswerToSymptomDetail` (medicalAIService.ts): the answer
extractor. -/
def convertAnswerToSymptomDetail (answer : Option AnswerVal)
    (questionHistory : List String) (primarySymptom : String) :
    Option SymptomDetail :=
  if jsFalsy answer ∨ questionHistory = [] then none
  else
    let lastQuestion := lastQuestionLower questionHistory
    if isSeverityQuestion lastQuestion then
      some { name := primarySymptom, severity := coerceSeverity answer
             duration := "", onset := "gradual", bodySystems := [] }
    else if isDurationQuestion lastQuestion then
      some { name := primarySymptom, severity := 0
             duration := answerAsString answer, onset := "gradual", bodySystems := [] }
    else if isLocationQuestion lastQuestion then
      some { name := primarySymptom, severity := 0, duration := ""
             location := answerAsString answer, onset := "gradual", bodySystems := [] }
    else
      match extractSymptomsFromAnswer (answerToString answer) with
      | extractedFirst :: _ =>
          some { name := extractedFirst, severity := 5
                 duration := "", onset := "gradual", bodySystems := [] }
      | [] =>
          some { name := primarySymptom, severity := 0, duration := ""
                 onset := "gradual"
                 associatedSymptoms := answerAsStringList answer
                 bodySystems := [] }

/-! ### Spec-side comparison definitions -/

/-- Modelled from the spec, §8: the likelihood bucket table as written
there ("very_low if c<20, low if 20≤c<40, moderate if 40≤c<60, high if
60≤c<80, else very_high"), for comparison with `getConfidenceCategory`. -/
def likelihoodSpec (c : Int) : Likelihood :=
  if c < 20 then .very_low
  else if 20 ≤ c ∧ c < 40 then .low
  else if 40 ≤ c ∧ c < 60 then .moderate
  else if 60 ≤ c ∧ c < 80 then .high
  else .very_high

/-! ### Concrete instances used by the claim theorems -/

/-- The spec §8 worked completeness example: severity 5, duration "2 days",
no location, no frequency, one associated symptom, onset set. -/
def c1Evidence : SymptomDetail :=
  { name := "fever", severity := 5, duration := "2 days", onset := "gradual"
    associatedSymptoms := ["chills"] }

/-- The mirror-image case for the location criterion: a complaint whose
name requires a location ("chest_pain"), with the location missing. -/
def c1EvidenceB : SymptomDetail :=
  { name := "chest_pain", severity := 5, duration := "2 days", onset := "gradual"
    associatedSymptoms := ["sweating"] }

/-- A progress with an emergency-urgency candidate and none of the three
stop conditions met. -/
def c3EmergencyProgress : DiagnosticProgress :=
  { totalQuestionsAsked := 5
    maxQuestions := 20
    currentConfidence := 10
    targetConfidence := 85
    possibleDiagnoses :=
      [ { name := "Aortic dissection", confidence := 10, likelihood := .very_low, urgency := .emergency }
      , { name := "Reflux", confidence := 5, likelihood := .very_low, urgency := .low } ]
    ruledOutConditions := []
    nextQuestionStrategy := .discriminative
    informationGain := 0 }

/-- A progress at the question budget with low confidence. -/
def c3MaxedProgress : DiagnosticProgress :=
  { totalQuestionsAsked := 20
    maxQuestions := 20
    currentConfidence := 10
    targetConfidence := 85
    possibleDiagnoses := []
    ruledOutConditions := []
    nextQuestionStrategy := .discriminative
    informationGain := 0 }

/-- A progress exactly at the target confidence. -/
def c3TargetProgress : DiagnosticProgress :=
  { totalQuestionsAsked := 3
    maxQuestions := 20
    currentConfidence := 70
    targetConfidence := 70
    possibleDiagnoses := []
    ruledOutConditions := []
    nextQuestionStrategy := .discriminative
    informationGain := 0 }

/-- Top candidate at 72% that is also emergency urgency (spec §8: rule 2
must still win over rule 4). -/
def c5Top72Emergency : PossibleDiagnosis :=
  { name := "A", confidence := 72, likelihood := .high, urgency := .emergency }

/-- Second candidate at 50%. -/
def c5Second50 : PossibleDiagnosis :=
  { name := "B", confidence := 50, likelihood := .moderate, urgency := .moderate }

/-- Top candidate at 60%. -/
def c5Top60 : PossibleDiagnosis :=
  { name := "C", confidence := 60, likelihood := .high, urgency := .moderate }

/-- A fresh engine used by the C6 witness. -/
def c6State : AdaptiveState := mkAdaptiveSystem "headache"

/-- An oracle response in non-sorted order used by the C6 witness. -/
def c6Oracle : List Diagnosis :=
  [ { condition := "Tension headache", probability := 35 }
  , { condition := "Migraine", probability := 80 }
  , { condition := "Cluster headache", probability := 55 } ]

/-- The converted top candidate of `c6Oracle`. -/
def c6TopCandidate : PossibleDiagnosis :=
  convertAIDiagnosis ["headache"] { condition := "Migraine", probability := 80 }

/-- An engine state mid-interview (3 questions asked) used by the C4
counterexample. -/
def c4State : AdaptiveState :=
  { primarySymptom := "fever"
    symptoms := []
    possibleDiagnoses := []
    ruledOutConditions := []
    diagnosticProgress :=
      { totalQuestionsAsked := 3
        maxQuestions := 20
        currentConfidence := 0
        targetConfidence := 85
        possibleDiagnoses := []
        ruledOutConditions := []
        nextQuestionStrategy := .discriminative
        informationGain := 0 } }

/-- A candidate present before the failed refresh of the C9
counterexample. -/
def c9Candidate : PossibleDiagnosis :=
  { name := "Influenza", confidence := 50, likelihood := .moderate, urgency := .moderate }

/-- An engine state with one stored candidate and 3 questions asked, used
by the C9 counterexample. -/
def c9State : AdaptiveState :=
  { primarySymptom := "fever"
    symptoms := []
    possibleDiagnoses := [c9Candidate]
    ruledOutConditions := []
    diagnosticProgress :=
      { totalQuestionsAsked := 3
        maxQuestions := 20
        currentConfidence := 50
        targetConfidence := 85
        possibleDiagnoses := [c9Candidate]
        ruledOutConditions := []
        nextQuestionStrategy := .discriminative
        informationGain := 0 } }

/-- Evidence record `{name: chest_pain, severity: sev}` used by C7. -/
def chestPainAt (sev : Int) : SymptomDetail :=
  { name := "chest_pain", severity := sev }

/-- The spec §8 sanitizer example input. -/
def c2Input : String := "Do you have fever and do you have chills?"

/-- An answer volunteering two complaint keywords, used by C10. -/
def c10Answer : Option AnswerVal := some (.str "I have a cough and some nausea")

/-- A one-question history whose question carries no severity/duration/
location cue, used by C10. -/
def c10History : List String := ["Do you have any other symptoms"]

/-! ### Claim theorems -/

/-- C1: the completeness scorer awards the +10 location point whenever the
primary Evidence record has a location or location is not required for the
complaint name, and in particular the spec's worked example (severity 5,
duration present, no location with location not required, no frequency, no
triggers, one associated symptom, onset set, one Evidence record, no
pattern/timing) scores exactly 50. This holds of
`AdaptiveDiagnosticSystem.calculateCompleteness`; the live duplicate
`DiagnosisTracker.getSymptomCompleteness` is missing the negation on
`requiresLocation` and scores the same example 40 (and conversely awards
the point when a required location is missing, `c1EvidenceB`). -/
theorem c1_completeness_location_criterion :
    calculateCompleteness "fever" [c1Evidence] = 50
    ∧ getSymptomCompleteness "fever" [c1Evidence] = 40
    ∧ calculateCompleteness "chest_pain" [c1EvidenceB] = 40
    ∧ getSymptomCompleteness "chest_pain" [c1EvidenceB] = 50 :=
  ⟨by decide, by decide, by decide, by decide⟩

/-- C8: the documented single source of truth for initial progress
defaults, `createInitialDiagnosticProgress`, does give targetConfidence 70
with totalQuestionsAsked 0, maxQuestions 20 and currentConfidence 0 — but
a fresh session does not start from it: both engine constructors
(`AdaptiveDiagnosticSystem`, `DiagnosisTracker`) hard-code
targetConfidence 85 in their inline initial progress. -/
theorem c8_initial_progress_defaults :
    createInitialDiagnosticProgress.targetConfidence = 70
    ∧ createInitialDiagnosticProgress.totalQuestionsAsked = 0
    ∧ createInitialDiagnosticProgress.maxQuestions = 20
    ∧ createInitialDiagnosticProgress.currentConfidence = 0
    ∧ (mkAdaptiveSystem "fever").diagnosticProgress.targetConfidence = 85
    ∧ diagnosisTrackerInitialProgress.targetConfidence = 85 :=
  ⟨rfl, rfl, rfl, rfl, rfl, rfl⟩

/-- C7: on the Evidence record `{name: chest_pain, severity: 9}` the
critical list is exactly ["High severity chest_pain (9/10)", "Moderate to
severe chest pain"] and the red-flag list contains the "possible cardiac
emergency" entry and the severe-symptom (severity ≥ 9) entry; the
inclusive thresholds are checked at the boundaries severity 7 (cardiac
red flag fires, severe-symptom entry does not) and severity 6/5 (critical
chest-pain entry fires at 6, not the red flag; nothing at 5). -/
theorem c7_critical_red_flag_detector :
    checkCriticalSymptoms [chestPainAt 9] =
      ["High severity chest_pain (9/10)", "Moderate to severe chest pain"]
    ∧ checkRedFlags [chestPainAt 9] =
      ["Severe chest pain - possible cardiac emergency", "Severe chest_pain (9-10/10)"]
    ∧ jsIncludes "Severe chest pain - possible cardiac emergency" "possible cardiac emergency" = true
    ∧ checkRedFlags [chestPainAt 7] = ["Severe chest pain - possible cardiac emergency"]
    ∧ checkRedFlags [chestPainAt 6] = []
    ∧ checkCriticalSymptoms [chestPainAt 6] = ["Moderate to severe chest pain"]
    ∧ checkCriticalSymptoms [chestPainAt 5] = [] :=
  ⟨by decide, by decide, by decide, by decide, by decide, by decide, by decide⟩

/-- C4 counterexample: the step-2 candidate-list refresh
(`updateWithAIDiagnoses`) does NOT leave totalQuestionsAsked unchanged —
on a state with 3 questions asked, refreshing (here with an empty oracle
list) bumps the counter to 4. -/
theorem c4_refresh_counter_cex :
    (updateWithAIDiagnoses c4State []).diagnosticProgress.totalQuestionsAsked = 4
    ∧ c4State.diagnosticProgress.totalQuestionsAsked = 3 :=
  ⟨rfl, rfl⟩

/-- C4 (amended): within one turn totalQuestionsAsked increases twice, not
once: `updateDiagnosis` increments it when Evidence is appended (changing
nothing else in Progress besides the ruled-out sync), and the step-2
refresh `updateWithAIDiagnoses` increments it again while replacing the
diagnosis-related fields; both leave maxQuestions (and targetConfidence
and informationGain) unchanged. -/
theorem c4_turn_counter_amended (st : AdaptiveState) (d : SymptomDetail)
    (aiDiagnoses : List Diagnosis) :
    (updateDiagnosis st d).diagnosticProgress.totalQuestionsAsked
        = st.diagnosticProgress.totalQuestionsAsked + 1
    ∧ (updateDiagnosis st d).symptoms = st.symptoms ++ [d]
    ∧ (updateDiagnosis st d).diagnosticProgress.maxQuestions
        = st.diagnosticProgress.maxQuestions
    ∧ (updateDiagnosis st d).diagnosticProgress.currentConfidence
        = st.diagnosticProgress.currentConfidence
    ∧ (updateDiagnosis st d).diagnosticProgress.possibleDiagnoses
        = st.diagnosticProgress.possibleDiagnoses
    ∧ (updateDiagnosis st d).diagnosticProgress.nextQuestionStrategy
        = st.diagnosticProgress.nextQuestionStrategy
    ∧ (updateWithAIDiagnoses st aiDiagnoses).diagnosticProgress.totalQuestionsAsked
        = st.diagnosticProgress.totalQuestionsAsked + 1
    ∧ (updateWithAIDiagnoses st aiDiagnoses).diagnosticProgress.maxQuestions
        = st.diagnosticProgress.maxQuestions
    ∧ (updateWithAIDiagnoses st aiDiagnoses).diagnosticProgress.targetConfidence
        = st.diagnosticProgress.targetConfidence
    ∧ (updateWithAIDiagnoses st aiDiagnoses).diagnosticProgress.informationGain
        = st.diagnosticProgress.informationGain :=
  ⟨rfl, rfl, rfl, rfl, rfl, rfl, rfl, rfl, rfl, rfl⟩

/-- C9 counterexample: after an oracle failure the stored Progress is NOT
unchanged — on a state holding one candidate at 50% with 3 questions
asked, the degraded refresh wipes the candidate list, zeroes the
confidence and bumps the question counter. -/
theorem c9_degraded_turn_cex :
    (updateWithRealTimeAnalysis c9State (Except.error "Failed to analyze symptoms after retries")).diagnosticProgress
      ≠ c9State.diagnosticProgress
    ∧ (updateWithRealTimeAnalysis c9State (Except.error "Failed to analyze symptoms after retries")).diagnosticProgress.possibleDiagnoses = []
    ∧ c9State.diagnosticProgress.possibleDiagnoses = [c9Candidate]
    ∧ (updateWithRealTimeAnalysis c9State (Except.error "Failed to analyze symptoms after retries")).diagnosticProgress.totalQuestionsAsked = 4 :=
  ⟨by decide, rfl, rfl, rfl⟩

/-- C9 (amended): on any oracle failure no exception propagates and the
analysis degrades to confidence 0 / empty candidate list with the fixed
log reason; the stored Progress is then still refreshed with that empty
list — candidates cleared, currentConfidence 0, totalQuestionsAsked
incremented — rather than left unchanged; maxQuestions is untouched. -/
theorem c9_degraded_turn_amended (st : AdaptiveState) (e : String) :
    getRealTimeAIAnalysis (Except.error e) =
      { diagnoses := [], confidence := 0, reasoning := "AI analysis unavailable" }
    ∧ (updateWithRealTimeAnalysis st (Except.error e)).possibleDiagnoses = []
    ∧ (updateWithRealTimeAnalysis st (Except.error e)).diagnosticProgress.currentConfidence = 0
    ∧ (updateWithRealTimeAnalysis st (Except.error e)).diagnosticProgress.possibleDiagnoses = []
    ∧ (updateWithRealTimeAnalysis st (Except.error e)).diagnosticProgress.totalQuestionsAsked
        = st.diagnosticProgress.totalQuestionsAsked + 1
    ∧ (updateWithRealTimeAnalysis st (Except.error e)).diagnosticProgress.maxQuestions
        = st.diagnosticProgress.maxQuestions :=
  ⟨rfl, rfl, rfl, rfl, rfl, rfl⟩

/-- C3: the stop evaluator returns stop=true exactly when one of the three
conditions holds — (1) currentConfidence ≥ targetConfidence, (2)
totalQuestionsAsked ≥ maxQuestions, (3) exactly one candidate with
confidence ≥ 75 — evaluated top-down with inclusive thresholds; each
stopping branch carries a reason string embedding the triggering numbers;
otherwise it returns the no-stop pair. No other condition stops: a
progress with an emergency-urgency candidate but none of the three
conditions yields (false, none); at the question budget it stops
regardless of confidence. -/
theorem c3_stop_evaluator (p : DiagnosticProgress) :
    ((shouldStop p).1 = true ↔
      (p.targetConfidence ≤ p.currentConfidence
        ∨ p.maxQuestions ≤ p.totalQuestionsAsked
        ∨ (p.possibleDiagnoses.length = 1 ∧ 75 ≤ p.currentConfidence)))
    ∧ (p.targetConfidence ≤ p.currentConfidence →
        (shouldStop p).2 = some ("Target confidence reached: "
          ++ toString p.currentConfidence ++ "% >= " ++ toString p.targetConfidence ++ "%"))
    ∧ (¬ p.targetConfidence ≤ p.currentConfidence →
        p.maxQuestions ≤ p.totalQuestionsAsked →
        (shouldStop p).2 = some ("Maximum questions reached: "
          ++ toString p.totalQuestionsAsked ++ " >= " ++ toString p.maxQuestions))
    ∧ (¬ p.targetConfidence ≤ p.currentConfidence →
        ¬ p.maxQuestions ≤ p.totalQuestionsAsked →
        p.possibleDiagnoses.length = 1 → 75 ≤ p.currentConfidence →
        (shouldStop p).2 = some ("Single high-confidence diagnosis: "
          ++ ((p.possibleDiagnoses.head?.map PossibleDiagnosis.name).getD "undefined")
          ++ " (" ++ toString p.currentConfidence ++ "% confidence)"))
    ∧ (¬ (p.targetConfidence ≤ p.currentConfidence
            ∨ p.maxQuestions ≤ p.totalQuestionsAsked
            ∨ (p.possibleDiagnoses.length = 1 ∧ 75 ≤ p.currentConfidence)) →
        shouldStop p = (false, none))
    ∧ shouldStop c3EmergencyProgress = (false, none)
    ∧ (shouldStop c3MaxedProgress).1 = true := by
  refine ⟨?_, ?_, ?_, ?_, ?_, by decide, by decide⟩
  · unfold shouldStop
    split_ifs with h1 h2 h3
    · simp [h1]
    · simp [h1, h2]
    · simp [h1, h2, h3.1, h3.2]
    · simp [h1, h2, h3]
  · intro h1
    unfold shouldStop
    rw [if_pos h1]
  · intro h1 h2
    unfold shouldStop
    rw [if_neg h1, if_pos h2]
  · intro h1 h2 h3 h4
    unfold shouldStop
    rw [if_neg h1, if_neg h2, if_pos ⟨h3, h4⟩]
  · intro h
    simp only [not_or] at h
    unfold shouldStop
    rw [if_neg h.1, if_neg h.2.1, if_neg h.2.2]

/-- C3 witness: at a progress exactly at the target confidence (70 of 70),
the evaluator stops with the reason string embedding both numbers. -/
theorem c3_stop_evaluator_witness :
    c3TargetProgress.targetConfidence ≤ c3TargetProgress.currentConfidence
    ∧ (shouldStop c3TargetProgress).2 = some "Target confidence reached: 70% >= 70%" :=
  ⟨by decide, ((c3_stop_evaluator c3TargetProgress).2.1 (by decide)).trans (by decide)⟩

/-- C5: the strategy selector of the code equals the spec's five rules
evaluated top-down with first match winning, on every input; in particular
candidates [{72, emergency}, {50}] select confirmation (rule 2 wins before
the red-flag rule is reached), [{60}, {50}] select discriminative
(gap 10 < 15), and an empty candidate list selects completeness. -/
theorem c5_strategy_selector :
    (∀ (candidates : List PossibleDiagnosis) (evidence : List SymptomDetail),
        updateQuestionStrategy candidates evidence = selectStrategySpec candidates evidence)
    ∧ updateQuestionStrategy [c5Top72Emergency, c5Second50] [] = .confirmation
    ∧ updateQuestionStrategy [c5Top60, c5Second50] [] = .discriminative
    ∧ updateQuestionStrategy [] [] = .completeness := by
  refine ⟨?_, by decide, by decide, rfl⟩
  intro candidates evidence
  rcases candidates with _ | ⟨top, _ | ⟨second, rest⟩⟩
  · rfl
  · simp [updateQuestionStrategy, selectStrategySpec, hasRedFlagSymptoms]
  · simp only [updateQuestionStrategy, selectStrategySpec, hasRedFlagSymptoms, List.head?,
      List.getElem?_cons_succ, List.getElem?_cons_zero, decide_eq_true_eq]

/-- Helper: the code's bucket function agrees with the spec's bucket
table. -/
theorem getConfidenceCategory_eq_spec (c : Int) :
    getConfidenceCategory c = likelihoodSpec c := by
  unfold getConfidenceCategory likelihoodSpec
  split_ifs <;> first | rfl | omega

/-- C6: after any `updateWithAIDiagnoses` refresh, for any input ordering,
the stored candidate list is sorted descending by confidence,
currentConfidence equals the top candidate's confidence (0 when the list
is empty), and every candidate's likelihood bucket is derived from its
confidence by the spec's bucket table. -/
theorem c6_diagnosis_list_invariants (st : AdaptiveState)
    (aiDiagnoses : List Diagnosis) :
    List.Sorted descConfidence (updateWithAIDiagnoses st aiDiagnoses).possibleDiagnoses
    ∧ ((updateWithAIDiagnoses st aiDiagnoses).possibleDiagnoses = [] →
        (updateWithAIDiagnoses st aiDiagnoses).diagnosticProgress.currentConfidence = 0)
    ∧ (∀ top rest,
        (updateWithAIDiagnoses st aiDiagnoses).possibleDiagnoses = top :: rest →
        (updateWithAIDiagnoses st aiDiagnoses).diagnosticProgress.currentConfidence
          = top.confidence)
    ∧ (∀ d ∈ (updateWithAIDiagnoses st aiDiagnoses).possibleDiagnoses,
        d.likelihood = likelihoodSpec d.confidence) := by
  refine ⟨List.sorted_insertionSort descConfidence _, ?_, ?_, ?_⟩
  · intro h
    simp only [updateWithAIDiagnoses] at h ⊢
    rw [h]
    rfl
  · intro top rest h
    simp only [updateWithAIDiagnoses] at h ⊢
    rw [h]
    rfl
  · intro d hd
    simp only [updateWithAIDiagnoses, List.mem_insertionSort, List.mem_map] at hd
    obtain ⟨a, _, rfl⟩ := hd
    simpa [convertAIDiagnosis] using getConfidenceCategory_eq_spec a.probability

/-- C6 witness: refreshing a fresh engine with an out-of-order oracle
response, the converted 80%-candidate is in the stored list and its
bucket follows the spec table (it is very_high). -/
theorem c6_diagnosis_list_invariants_witness :
    c6TopCandidate ∈ (updateWithAIDiagnoses c6State c6Oracle).possibleDiagnoses
    ∧ c6TopCandidate.likelihood = likelihoodSpec c6TopCandidate.confidence :=
  ⟨by decide,
   (c6_diagnosis_list_invariants c6State c6Oracle).2.2.2 c6TopCandidate (by decide)⟩

/-- C2 counterexample: the sanitizer's English pattern set does match
"Do you have fever and do you have chills?" (conjunction before the
question mark), but the output is the input unchanged: the split happens
at question-mark characters only, so the output does not end at the first
clause ("Do you have fever?") and still contains the second clause — the
displayed question still asks two things. -/
theorem c2_sanitizer_cex :
    (compoundPatterns "en").any (fun p => reMatch p c2Input.toList) = true
    ∧ validateAndCleanQuestion c2Input "en" = c2Input
    ∧ validateAndCleanQuestion c2Input "en" ≠ "Do you have fever?"
    ∧ jsIncludes (validateAndCleanQuestion c2Input "en") "and do you have chills?" = true :=
  ⟨by decide, by decide, by decide, by decide⟩

/-- C2 (amended): for every question the compound-question pattern set
matches and that contains a question-mark character, the sanitizer returns
the text before the FIRST question-mark character plus one terminating
mark, trimmed — truncation is at the question-mark character, not at the
first clause, so a conjunction compound question whose only question mark
is terminal comes back unchanged. -/
theorem c2_sanitizer_truncates_at_question_mark (question language : String)
    (hne : question ≠ "")
    (hmatch : (compoundPatterns language).any (fun p => reMatch p question.toList) = true)
    (hsplit : 1 < (jsSplit question isQuestionMark).length) :
    validateAndCleanQuestion question language =
      jsTrim (((jsSplit question isQuestionMark).headD "")
        ++ (if jsContainsChar question '?' then "?" else "？")) := by
  simp only [validateAndCleanQuestion]
  rw [if_neg hne, if_pos ⟨hmatch, hsplit⟩]

/-- C2 witness: the amended truncation rule applied at the spec's example
input. -/
theorem c2_sanitizer_witness :
    c2Input ≠ ""
    ∧ (compoundPatterns "en").any (fun p => reMatch p c2Input.toList) = true
    ∧ 1 < (jsSplit c2Input isQuestionMark).length
    ∧ validateAndCleanQuestion c2Input "en" =
        jsTrim (((jsSplit c2Input isQuestionMark).headD "")
          ++ (if jsContainsChar c2Input '?' then "?" else "？")) :=
  ⟨by decide, by decide, by decide,
   c2_sanitizer_truncates_at_question_mark c2Input "en" (by decide) (by decide) (by decide)⟩

/-- C10: the answer extractor returns none exactly when the answer is
absent (falsy) or the question history is empty; on every other input it
synthesizes exactly one Evidence record. When the last question carries no
severity/duration/location cue and the answer text contains recognizable
complaint keywords, only the first keyword in scan order names the record
(severity 5); on a severity question the answer is numerically coerced
with default 5 when not parseable; an answer matching nothing falls back
to an associated-symptom note on the primary complaint. -/
theorem c10_answer_extractor (answer : Option AnswerVal)
    (questionHistory : List String) (primarySymptom : String) :
    (convertAnswerToSymptomDetail answer questionHistory primarySymptom = none ↔
      (jsFalsy answer = true ∨ questionHistory = []))
    ∧ (jsFalsy answer = false → questionHistory ≠ [] →
        isSeverityQuestion (lastQuestionLower questionHistory) = false →
        isDurationQuestion (lastQuestionLower questionHistory) = false →
        isLocationQuestion (lastQuestionLower questionHistory) = false →
        ∀ firstKeyword restKeywords,
          extractSymptomsFromAnswer (answerToString answer) = firstKeyword :: restKeywords →
          convertAnswerToSymptomDetail answer questionHistory primarySymptom =
            some { name := firstKeyword, severity := 5, duration := ""
                   onset := "gradual", bodySystems := [] })
    ∧ (jsFalsy answer = false → questionHistory ≠ [] →
        isSeverityQuestion (lastQuestionLower questionHistory) = true →
        convertAnswerToSymptomDetail answer questionHistory primarySymptom =
          some { name := primarySymptom, severity := coerceSeverity answer
                 duration := "", onset := "gradual", bodySystems := [] })
    ∧ (∀ s, jsParseInt s = none → coerceSeverity (some (.str s)) = 5)
    ∧ (jsFalsy answer = false → questionHistory ≠ [] →
        isSeverityQuestion (lastQuestionLower questionHistory) = false →
        isDurationQuestion (lastQuestionLower questionHistory) = false →
        isLocationQuestion (lastQuestionLower questionHistory) = false →
        extractSymptomsFromAnswer (answerToString answer) = [] →
        convertAnswerToSymptomDetail answer questionHistory primarySymptom =
          some { name := primarySymptom, severity := 0, duration := ""
                 onset := "gradual"
                 associatedSymptoms := answerAsStringList answer
                 bodySystems := [] }) := by
  refine ⟨?_, ?_, ?_, ?_, ?_⟩
  · by_cases h : jsFalsy answer = true ∨ questionHistory = []
    · simp [convertAnswerToSymptomDetail, h]
    · simp only [convertAnswerToSymptomDetail, if_neg h]
      simp only [h, iff_false]
      split_ifs <;> try simp
      split <;> simp
  · intro h1 h2 h3 h4 h5 firstKeyword restKeywords hExtract
    simp [convertAnswerToSymptomDetail, h1, h2, h3, h4, h5, hExtract]
  · intro h1 h2 h3
    simp [convertAnswerToSymptomDetail, h1, h2, h3]
  · intro s hs
    simp [coerceSeverity, hs]
  · intro h1 h2 h3 h4 h5 hExtract
    simp [convertAnswerToSymptomDetail, h1, h2, h3, h4, h5, hExtract]

/-- C10 witness: an answer volunteering both "cough" and "nausea" after a
cue-free question produces exactly one record, named by the first keyword
in scan order. -/
theorem c10_answer_extractor_witness :
    jsFalsy c10Answer = false
    ∧ extractSymptomsFromAnswer (answerToString c10Answer) = ["cough", "nausea"]
    ∧ convertAnswerToSymptomDetail c10Answer c10History "fever" =
        some { name := "cough", severity := 5, duration := ""
               onset := "gradual", bodySystems := [] } :=
  ⟨by decide, by decide,
   (c10_answer_extractor c10Answer c10History "fever").2.1
     (by decide) (by decide) (by decide) (by decide) (by decide)
     "cough" ["nausea"] (by decide)⟩

end DoctorAsk
